import Mathlib

/-!
Shallow embedding of the dataset-collector service (`src/app.py`).

The service stores uploaded video/data file pairs in two directories
(`VIDEO_FOLDER`, `JSON_FOLDER`).  Directories are modelled as association
lists from file name to file content, kept in directory-iteration order.
File bytes are modelled by their `json.load` outcome: `FileData.raw s`
stands for bytes `s` that are not valid JSON, `FileData.jsonDoc j` for
bytes whose JSON parse yields the document `j`.  The wall clock
(`datetime.now().strftime("%Y-%m-%d_%H-%M-%S")`) is passed in as an
explicit `timestamp` argument.
-/

namespace DatasetCollector

/-- One character of the forbidden class of `re.sub(r'[<>:"/\\|?*\x00-\x1F]', "_", ...)`:
the nine listed characters plus the control range 0x00-0x1F. -/
def isInvalidChar (c : Char) : Bool :=
  c = '<' || c = '>' || c = ':' || c = '"' || c = '/' || c = '\\' ||
  c = '|' || c = '?' || c = '*' || c.toNat ≤ 0x1F

/-- Per-character substitution performed by `sanitize_filename`. -/
def sanitizeChar (c : Char) : Char :=
  if isInvalidChar c then '_' else c

/-- `sanitize_filename` (src/app.py lines 20-24): replace every character of the
forbidden class with an underscore. -/
def sanitize_filename (filename : String) : String :=
  String.mk (filename.toList.map sanitizeChar)

/-- Python `str.split("-")` on the character list: split at every dash,
keeping empty groups, always returning at least one group. -/
def splitDash : List Char → List (List Char)
  | [] => [[]]
  | c :: cs =>
    match splitDash cs with
    | [] => [[]]
    | g :: gs => if c = '-' then [] :: g :: gs else (c :: g) :: gs

/-- Python `s.split("-")` as a `String` operation. -/
def pySplitDash (s : String) : List String :=
  (splitDash s.toList).map String.mk

/-- Contiguous-sublist test on character lists. -/
def listIsInfix (needle : List Char) : List Char → Bool
  | [] => needle.isEmpty
  | c :: cs => needle.isPrefixOf (c :: cs) || listIsInfix needle cs

/-- Python `needle in hay` substring test (used as `timestamp in f`). -/
def pyIn (needle hay : String) : Bool :=
  listIsInfix needle.toList hay.toList

/-- Python `s.endswith(suffix)`. -/
def pyEndsWith (s suffix : String) : Bool :=
  suffix.toList.isSuffixOf s.toList

/-- Python `s.lower()` (the service only feeds it ASCII file names). -/
def pyLower (s : String) : String :=
  String.mk (s.toList.map Char.toLower)

/-- Split a character list at its last dot: `some (pre, post)` with
input `= pre ++ '.' :: post` and `post` dot-free, `none` when no dot occurs. -/
def splitLastDot : List Char → Option (List Char × List Char)
  | [] => none
  | c :: cs =>
    match splitLastDot cs with
    | some (pre, post) => some (c :: pre, post)
    | none => if c = '.' then some ([], cs) else none

/-- `os.path.splitext` for the separator-free names this service produces:
split at the last dot provided some character before it is not a dot
(so names consisting of leading dots only, like `.bashrc`, do not split). -/
def splitext (s : String) : String × String :=
  match splitLastDot s.toList with
  | some (pre, post) =>
    if pre.any (fun c => c ≠ '.') then (String.mk pre, String.mk ('.' :: post))
    else (s, "")
  | none => (s, "")

/-- JSON documents as produced by `json.load`. -/
inductive Json where
  | null
  | bool (b : Bool)
  | num (n : Int)
  | str (s : String)
  | arr (elems : List Json)
  | obj (fields : List (String × Json))

/-- Stored file bytes, modelled by their `json.load` outcome:
`raw s` are bytes that are not valid JSON, `jsonDoc j` are bytes parsing to `j`. -/
inductive FileData where
  | raw (bytes : String)
  | jsonDoc (doc : Json)

/-- `json.load` on a stored file: fails exactly on non-JSON bytes. -/
def parseJsonFile : FileData → Option Json
  | .raw _ => none
  | .jsonDoc d => some d

/-- Python `dict.get key default` on the field list of a JSON object. -/
def jsonGet (fields : List (String × Json)) (key : String) (dflt : Json) : Json :=
  ((fields.find? (fun p => p.1 == key)).map (fun p => p.2)).getD dflt

/-- The two storage directories owned by the service
(`VIDEO_FOLDER` and `JSON_FOLDER`), as name-to-content association lists
in directory-iteration order. -/
structure ServerState where
  videoDir : List (String × FileData)
  jsonDir : List (String × FileData)

/-- The empty store (both directories freshly created). -/
def emptyState : ServerState := ⟨[], []⟩

/-- Writing `name` into a directory: truncate-overwrite when the name exists,
otherwise create a new entry. -/
def saveFile (dir : List (String × FileData)) (name : String) (data : FileData) :
    List (String × FileData) :=
  if dir.any (fun p => p.1 == name) then
    dir.map (fun p => if p.1 == name then (name, data) else p)
  else
    dir ++ [(name, data)]

/-- `os.remove` composed with the `os.path.exists` guard: drop every entry
with the given name (a no-op when absent). -/
def removeFile (dir : List (String × FileData)) (name : String) :
    List (String × FileData) :=
  dir.filter (fun p => !(p.1 == name))

/-- Content stored in a directory under a name, if any. -/
def lookupFile (dir : List (String × FileData)) (name : String) : Option FileData :=
  (dir.find? (fun p => p.1 == name)).map (fun p => p.2)

/-- One multipart file part of the upload request. -/
structure FilePart where
  filename : String
  mimetype : String
  content : FileData

/-- The upload request: the optional `video` and `json` parts of `request.files`. -/
structure UploadRequest where
  video : Option FilePart
  jsonFile : Option FilePart

/-- HTTP outcome of `upload_file`: a 400 with message, a 500 with message, or
the 200 payload with the relative video path and the two echoed arrays. -/
inductive UploadResult where
  | badRequest (message : String)
  | serverError (message : String)
  | ok (video : String) (gyroscopeData accelerometerData : Json)

/-- Predicate: the result is a 400 rejection. -/
def UploadResult.isBadRequest : UploadResult → Bool
  | .badRequest _ => true
  | _ => false

/-- Predicate: the result is a 500 failure. -/
def UploadResult.isServerError : UploadResult → Bool
  | .serverError _ => true
  | _ => false

/-- Predicate: the result is a 200 success. -/
def UploadResult.isOk : UploadResult → Bool
  | .ok _ _ _ => true
  | _ => false

/-- Sanitized video base name with forced `.mp4` extension (lines 80-82):
keep the sanitized name when its lowercasing already ends in `.mp4`,
otherwise strip the extension and append `.mp4`. -/
def videoBase (name : String) : String :=
  let base := sanitize_filename name
  if pyEndsWith (pyLower base) ".mp4" then base
  else (splitext base).1 ++ ".mp4"

/-- Stored video name derived by `upload_file` (lines 80-83): sanitize, force a
`.mp4` extension, then prefix the timestamp. -/
def derivedVideoName (timestamp name : String) : String :=
  timestamp ++ "-" ++ videoBase name

/-- Stored data name derived by `upload_file` (lines 85-86): sanitize, then
prefix the timestamp (no extension forcing). -/
def derivedJsonName (timestamp name : String) : String :=
  timestamp ++ "-" ++ sanitize_filename name

/-- The chain of validation guards of `upload_file` (lines 59-76): both parts
present, both names non-empty, declared content types exactly `video/mp4`
and `application/json`. -/
def requestValid (req : UploadRequest) : Bool :=
  match req.video, req.jsonFile with
  | some v, some j =>
    !(v.filename == "") && !(j.filename == "") &&
    v.mimetype == "video/mp4" && j.mimetype == "application/json"
  | _, _ => false

/-- `upload_file` (src/app.py lines 54-120).  Validation guards in source
order; on success both files are saved (video first), the data file is
re-read and parsed, and the response echoes `gyroscopeData` and
`accelerometerData` via `dict.get` with empty-list defaults.  A JSON parse
failure or a non-object document raises inside the `try` and is answered by
the generic 500 handler; the files saved before the failure are kept. -/
def upload_file (req : UploadRequest) (timestamp : String) (s : ServerState) :
    UploadResult × ServerState :=
  match req.video, req.jsonFile with
  | none, _ => (.badRequest "Video and JSON data are required", s)
  | some _, none => (.badRequest "Video and JSON data are required", s)
  | some video, some json_data_file =>
    if video.filename == "" then (.badRequest "No video file uploaded", s)
    else if json_data_file.filename == "" then (.badRequest "No JSON file uploaded", s)
    else if !(video.mimetype == "video/mp4") then
      (.badRequest "Video must be an MP4 file", s)
    else if !(json_data_file.mimetype == "application/json") then
      (.badRequest "JSON data must be a .json file", s)
    else
      let video_filename := derivedVideoName timestamp video.filename
      let json_filename := derivedJsonName timestamp json_data_file.filename
      let s1 : ServerState :=
        { videoDir := saveFile s.videoDir video_filename video.content
          jsonDir := saveFile s.jsonDir json_filename json_data_file.content }
      match parseJsonFile json_data_file.content with
      | none => (.serverError "An error occurred: JSON decode failure", s1)
      | some doc =>
        match doc with
        | .obj fields =>
          (.ok ("videos/" ++ video_filename)
            (jsonGet fields "gyroscopeData" (.arr []))
            (jsonGet fields "accelerometerData" (.arr [])), s1)
        | _ => (.serverError "An error occurred: document has no attribute get", s1)

/-- `list_datasets` (lines 196-206): the extension-stripped stem of every
`.mp4` entry of the video directory, in iteration order. -/
def list_datasets (s : ServerState) : List String :=
  s.videoDir.filterMap (fun p =>
    if pyEndsWith p.1 ".mp4" then some (splitext p.1).1 else none)

/-- The `matching_json_files` comprehension of `download_all_datasets`
(lines 224-228): data-directory names containing the derived key and
ending in `.json`, in iteration order. -/
def matchingJsonFiles (jsonDir : List (String × FileData)) (timestamp : String) :
    List String :=
  (jsonDir.map (fun p => p.1)).filter
    (fun f => pyIn timestamp f && pyEndsWith f ".json")

/-- Loop body of `download_all_datasets` over the video-directory listing:
returns the zip pairs `(folder, video name, json name)` (each written into
the archive as `folder/name`) and the `missing_files` diagnostics list. -/
def downloadAllGo (jsonDir : List (String × FileData)) :
    List String → List (String × String × String) × List String
  | [] => ([], [])
  | video_filename :: rest =>
    if pyEndsWith video_filename ".mp4" then
      let timestamp := String.intercalate "-" ((pySplitDash video_filename).take 2)
      match matchingJsonFiles jsonDir timestamp with
      | [] =>
        let r := downloadAllGo jsonDir rest
        (r.1, (timestamp ++ "/Missing JSON") :: r.2)
      | json_filename :: _ =>
        let r := downloadAllGo jsonDir rest
        ((timestamp, video_filename, json_filename) :: r.1, r.2)
    else downloadAllGo jsonDir rest

/-- `download_all_datasets` (lines 209-257): for every `.mp4` video entry,
derive the key as the first two dash-delimited tokens of the file name,
pair it with the first matching data entry, and record `{key}/Missing JSON`
when none matches. -/
def download_all_datasets (s : ServerState) :
    List (String × String × String) × List String :=
  downloadAllGo s.jsonDir (s.videoDir.map (fun p => p.1))

/-- Loop body of `delete_all` over the snapshot of the video-directory
listing: for every `.mp4` name remove the video file and its
`{stem}.json` counterpart. -/
def deleteAllGo : List String → ServerState → ServerState
  | [], s => s
  | filename :: rest, s =>
    if pyEndsWith filename ".mp4" then
      let stem := (splitext filename).1
      deleteAllGo rest
        { videoDir := removeFile s.videoDir filename
          jsonDir := removeFile s.jsonDir (stem ++ ".json") }
    else deleteAllGo rest s

/-- `delete_all` (lines 277-295): returns the 200 message together with the
resulting store. -/
def delete_all (s : ServerState) : String × ServerState :=
  ("All datasets deleted", deleteAllGo (s.videoDir.map (fun p => p.1)) s)

/-- `download_all_stream` (lines 297-320): the generator writes the zip of
`.mp4` entries into `temp.zip` in the working directory (creating or
truncating it), then streams its bytes; no code path removes the file.
Returns the zip entry list `(arcname, source name)` and the working
directory contents after the response has been fully sent. -/
def download_all_stream (s : ServerState) (cwd : List String) :
    List (String × String) × List String :=
  let entries := (s.videoDir.map (fun p => p.1)).filterMap
    (fun n => if pyEndsWith n ".mp4" then some ("videos/" ++ n, n) else none)
  let cwd1 := if cwd.contains "temp.zip" then cwd else cwd ++ ["temp.zip"]
  (entries, cwd1)

/-! Concrete fixtures used by the counterexamples and witnesses below. -/

/-- A concrete correlation key, as produced by `strftime("%Y-%m-%d_%H-%M-%S")`. -/
def ts0c : String := "2024-01-01_10-00-00"

/-- A well-formed video part. -/
def videoPartA : FilePart := ⟨"clip.mp4", "video/mp4", .raw "first-bytes"⟩

/-- A second video part with the same name but different bytes. -/
def videoPartB : FilePart := ⟨"clip.mp4", "video/mp4", .raw "second-bytes"⟩

/-- A data part whose bytes parse to the empty JSON object. -/
def jsonPartOk : FilePart := ⟨"data.json", "application/json", .jsonDoc (.obj [])⟩

/-- A data part whose bytes parse to a JSON array (valid JSON, not an object). -/
def jsonPartArr : FilePart := ⟨"data.json", "application/json", .jsonDoc (.arr [])⟩

/-- A data part whose bytes are not valid JSON. -/
def jsonPartBad : FilePart := ⟨"data.json", "application/json", .raw "not json"⟩

/-- A fully valid upload request. -/
def reqA : UploadRequest := ⟨some videoPartA, some jsonPartOk⟩

/-- A second valid upload request with the same file names as `reqA`. -/
def reqB : UploadRequest := ⟨some videoPartB, some jsonPartOk⟩

/-- An upload request whose video part declares `video/quicktime`. -/
def quicktimeReq : UploadRequest :=
  ⟨some ⟨"clip.mov", "video/quicktime", .raw "qt"⟩, some jsonPartOk⟩

/-- A store holding one video entry and no data entries. -/
def c2State : ServerState := ⟨[("2024-01-01_10-00-00-clip.mp4", .raw "vid")], []⟩

/-- A valid video part whose name carries the uppercase extension `.MP4`:
upload's case-insensitive extension check keeps the name as is, while the
list/pairing/delete scans test `endswith(".mp4")` case-sensitively. -/
def videoPartUpper : FilePart := ⟨"CLIP.MP4", "video/mp4", .raw "upper-bytes"⟩

/-- A fully valid upload request with the uppercase video extension. -/
def reqUpper : UploadRequest := ⟨some videoPartUpper, some jsonPartOk⟩

/-- A data part carrying a `gyroscopeData` array but no `accelerometerData`. -/
def jsonPartGyro : FilePart :=
  ⟨"data.json", "application/json", .jsonDoc (.obj [("gyroscopeData", .arr [.num 1])])⟩

/-- A store already holding the files a same-second re-upload of
`clip.mp4`/`data.json` would target. -/
def collisionState : ServerState :=
  ⟨[("2024-01-01_10-00-00-clip.mp4", .raw "first-bytes")],
   [("2024-01-01_10-00-00-data.json", .jsonDoc (.obj []))]⟩

/-! Helper lemmas. -/

/-- The substitution character `_` is not itself in the forbidden class. -/
theorem sanitizeChar_fixes (c : Char) : sanitizeChar (sanitizeChar c) = sanitizeChar c := by
  unfold sanitizeChar
  by_cases h : isInvalidChar c = true
  · simp [h]
  · simp [h]

/-- Characters produced by `sanitizeChar` are never in the forbidden class. -/
theorem isInvalidChar_sanitizeChar (c : Char) : isInvalidChar (sanitizeChar c) = false := by
  unfold sanitizeChar
  by_cases h : isInvalidChar c = true
  · have : isInvalidChar '_' = false := by decide
    simpa [h] using this
  · simp [h]

/-- C7: for every input name, `sanitize_filename` produces a string with no
character from the forbidden set `< > : " / \ | ? *` and no control character
in 0x00-0x1F; it is a total Lean function, and it is idempotent:
sanitizing twice equals sanitizing once. -/
theorem sanitize_filename_safe_and_idempotent (name : String) :
    (∀ c ∈ (sanitize_filename name).toList, isInvalidChar c = false) ∧
    sanitize_filename (sanitize_filename name) = sanitize_filename name := by
  constructor
  · intro c hc
    unfold sanitize_filename at hc
    rw [show (String.mk (name.toList.map sanitizeChar)).toList = name.toList.map sanitizeChar
        from rfl] at hc
    obtain ⟨a, _, rfl⟩ := List.mem_map.mp hc
    exact isInvalidChar_sanitizeChar a
  · unfold sanitize_filename
    rw [show (String.mk (name.toList.map sanitizeChar)).toList = name.toList.map sanitizeChar
        from rfl]
    rw [List.map_map]
    congr 1
    apply List.map_congr_left
    intro a _
    exact sanitizeChar_fixes a

/-- C8 (behaviour at the failing input class): every run of the streaming
archive endpoint leaves `temp.zip` present in the working directory after the
last byte has been produced — no code path removes it. -/
theorem download_all_stream_leaves_temp_file (s : ServerState) (cwd : List String) :
    "temp.zip" ∈ (download_all_stream s cwd).2 := by
  unfold download_all_stream
  by_cases h : cwd.contains "temp.zip" = true
  · simp only [h, if_true]
    simpa using h
  · simp only [h]
    simp

/-- The video directory after the `delete_all` loop over `names`: exactly the
entries whose name is not a listed `.mp4` name survive. -/
theorem deleteAllGo_videoDir (names : List String) (s : ServerState) :
    (deleteAllGo names s).videoDir =
      s.videoDir.filter (fun p => !(names.contains p.1 && pyEndsWith p.1 ".mp4")) := by
  induction names generalizing s with
  | nil => simp [deleteAllGo]
  | cons n rest ih =>
    by_cases h : pyEndsWith n ".mp4" = true
    · rw [deleteAllGo, if_pos h, ih]
      show (removeFile s.videoDir n).filter _ = _
      rw [removeFile, List.filter_filter]
      apply List.filter_congr
      intro p _
      cases hb : p.1 == n with
      | true =>
        have hpe : p.1 = n := eq_of_beq hb
        simp [hpe, h]
      | false =>
        have hne : ¬ p.1 = n := by simpa using hb
        simp [hne]
    · rw [deleteAllGo, if_neg h, ih]
      apply List.filter_congr
      intro p _
      cases hb : p.1 == n with
      | true =>
        have hpe : p.1 = n := eq_of_beq hb
        have he : pyEndsWith p.1 ".mp4" = false := by
          rw [hpe]
          simpa using h
        simp [hpe, he]
        intro _
        simpa using h
      | false =>
        have hne : ¬ p.1 = n := by simpa using hb
        simp [hne]

/-- The data directory after the `delete_all` loop over `names`: exactly the
entries named `{stem}.json` for some listed `.mp4` name `stem.mp4` are gone. -/
theorem deleteAllGo_jsonDir (names : List String) (s : ServerState) :
    (deleteAllGo names s).jsonDir =
      s.jsonDir.filter (fun q =>
        !(names.any (fun n => pyEndsWith n ".mp4" && q.1 == (splitext n).1 ++ ".json"))) := by
  induction names generalizing s with
  | nil => simp [deleteAllGo]
  | cons n rest ih =>
    by_cases h : pyEndsWith n ".mp4" = true
    · rw [deleteAllGo, if_pos h, ih]
      show (removeFile s.jsonDir ((splitext n).1 ++ ".json")).filter _ = _
      rw [removeFile, List.filter_filter]
      apply List.filter_congr
      intro q _
      simp [h, Bool.not_or, Bool.and_comm]
    · rw [deleteAllGo, if_neg h, ih]
      apply List.filter_congr
      intro q _
      have h' : pyEndsWith n ".mp4" = false := by simpa using h
      simp [h']

/-- The `delete_all` loop is the identity when no listed name ends in `.mp4`. -/
theorem deleteAllGo_id_of_no_mp4 (names : List String) (s : ServerState)
    (h : ∀ n ∈ names, pyEndsWith n ".mp4" = false) :
    deleteAllGo names s = s := by
  induction names with
  | nil => rfl
  | cons n rest ih =>
    rw [deleteAllGo, if_neg (by simp [h n (by simp)])]
    exact ih (fun m hm => h m (by simp [hm]))

/-- C9: `delete_all` is idempotent: run twice in a row, the second run returns
the success message `All datasets deleted` (there is no dataset-count
precondition — the loop over an already-emptied listing simply does nothing)
and leaves the store exactly as the first run left it. -/
theorem delete_all_idempotent (s : ServerState) :
    (delete_all (delete_all s).2).1 = "All datasets deleted" ∧
    (delete_all (delete_all s).2).2 = (delete_all s).2 := by
  refine ⟨rfl, ?_⟩
  show deleteAllGo ((delete_all s).2.videoDir.map (fun p => p.1)) (delete_all s).2
      = (delete_all s).2
  apply deleteAllGo_id_of_no_mp4
  intro n hn
  obtain ⟨p, hp, rfl⟩ := List.mem_map.mp hn
  have hp' := hp
  rw [show (delete_all s).2 = deleteAllGo (s.videoDir.map (fun q => q.1)) s from rfl] at hp'
  rw [deleteAllGo_videoDir] at hp'
  obtain ⟨hmem, hcond⟩ := List.mem_filter.mp hp'
  have hmm : p.1 ∈ s.videoDir.map (fun q => q.1) := List.mem_map_of_mem _ hmem
  have hcont : (s.videoDir.map (fun q => q.1)).contains p.1 = true :=
    List.elem_eq_true_of_mem hmm
  simp only [hcont, Bool.true_and, Bool.not_eq_true'] at hcond
  exact hcond

/-- C10: `delete_all` removes a data-directory entry exactly when its name is
`{stem}.json` for the extension-stripped stem of some `.mp4` entry of the
video directory; every other data entry (orphans included) survives in place. -/
theorem delete_all_jsonDir_only_paired (s : ServerState) :
    (delete_all s).2.jsonDir =
      s.jsonDir.filter (fun q =>
        !((s.videoDir.map (fun p => p.1)).any
          (fun n => pyEndsWith n ".mp4" && q.1 == (splitext n).1 ++ ".json"))) := by
  show (deleteAllGo (s.videoDir.map (fun p => p.1)) s).jsonDir = _
  exact deleteAllGo_jsonDir _ s

/-- C2 counterexample: on the exact store of the claim — video directory
holding `2024-01-01_10-00-00-clip.mp4`, data directory empty — the code
derives the key `2024-01` (not `2024-01-01_10-00-00`), records the string
`2024-01/Missing JSON` in the incomplete list, and the claimed key
`2024-01-01_10-00-00` appears nowhere in it. -/
theorem download_all_short_key_counterexample :
    download_all_datasets c2State = ([], ["2024-01/Missing JSON"]) ∧
    "2024-01-01_10-00-00" ∉ (download_all_datasets c2State).2 := by
  refine ⟨rfl, ?_⟩
  decide

/-- C2 amended: for a store whose video directory holds exactly
`2024-01-01_10-00-00-clip.mp4` and whose data directory has no entry that
both contains `2024-01` and ends in `.json`, `download_all_datasets` derives
the key from the first two dash-delimited tokens — yielding `2024-01` —
records `2024-01/Missing JSON` in the incomplete list and returns no pair. -/
theorem download_all_incomplete_short_key (d : FileData) (jd : List (String × FileData))
    (h : ∀ f ∈ jd.map (fun p => p.1), (pyIn "2024-01" f && pyEndsWith f ".json") = false) :
    download_all_datasets ⟨[("2024-01-01_10-00-00-clip.mp4", d)], jd⟩ =
      ([], ["2024-01/Missing JSON"]) := by
  have hm : matchingJsonFiles jd "2024-01" = [] := by
    rw [matchingJsonFiles, List.filter_eq_nil_iff]
    intro f hf
    simp [h f hf]
  show downloadAllGo jd ["2024-01-01_10-00-00-clip.mp4"] = _
  rw [downloadAllGo,
    if_pos (show pyEndsWith "2024-01-01_10-00-00-clip.mp4" ".mp4" = true by decide)]
  simp only [show String.intercalate "-"
      ((pySplitDash "2024-01-01_10-00-00-clip.mp4").take 2) = "2024-01" by decide, hm]
  rfl

/-- Closed instance of `download_all_incomplete_short_key` at a data directory
holding one non-matching entry. -/
theorem download_all_incomplete_short_key_witness :
    download_all_datasets ⟨[("2024-01-01_10-00-00-clip.mp4", FileData.raw "vid")],
      [("notes.txt", FileData.raw "n")]⟩ = ([], ["2024-01/Missing JSON"]) :=
  download_all_incomplete_short_key (FileData.raw "vid")
    [("notes.txt", FileData.raw "n")] (by decide)

/-- C6: whenever a part is missing, a part has an empty filename, or a
declared content type differs from `video/mp4` / `application/json`, the
upload is rejected with a 400 and the store is left completely unchanged —
no filesystem write happens before validation passes. -/
theorem upload_rejects_invalid_unchanged (req : UploadRequest) (ts : String)
    (s : ServerState) (h : requestValid req = false) :
    (upload_file req ts s).1.isBadRequest = true ∧ (upload_file req ts s).2 = s := by
  obtain ⟨vo, jo⟩ := req
  cases vo with
  | none => exact ⟨rfl, rfl⟩
  | some v =>
    cases jo with
    | none => exact ⟨rfl, rfl⟩
    | some j =>
      rw [upload_file]
      simp only [requestValid] at h
      cases h1 : v.filename == "" with
      | true => simp [h1, UploadResult.isBadRequest]
      | false =>
        cases h2 : j.filename == "" with
        | true => simp [h1, h2, UploadResult.isBadRequest]
        | false =>
          cases h3 : v.mimetype == "video/mp4" with
          | false => simp [h1, h2, h3, UploadResult.isBadRequest]
          | true =>
            cases h4 : j.mimetype == "application/json" with
            | false => simp [h1, h2, h3, h4, UploadResult.isBadRequest]
            | true =>
              rw [h1, h2, h3, h4] at h
              simp at h

/-- Closed instance of `upload_rejects_invalid_unchanged`: a
`video/quicktime` upload against the empty store is rejected and writes
nothing. -/
theorem upload_rejects_invalid_unchanged_witness :
    (upload_file quicktimeReq ts0c emptyState).1.isBadRequest = true ∧
    (upload_file quicktimeReq ts0c emptyState).2 = emptyState :=
  upload_rejects_invalid_unchanged quicktimeReq ts0c emptyState (by decide)

/-- Unfolding `lookupFile` over a cons cell. -/
theorem lookupFile_cons (x : String × FileData) (l : List (String × FileData)) (n : String) :
    lookupFile (x :: l) n = if x.1 == n then some x.2 else lookupFile l n := by
  rw [lookupFile, lookupFile, List.find?]
  cases h : x.1 == n <;> simp [h]

/-- Looking up `n` after the in-place overwrite branch of `saveFile`. -/
theorem lookupFile_map_subst (dir : List (String × FileData)) (n : String) (d : FileData)
    (h : dir.any (fun p => p.1 == n) = true) :
    lookupFile (dir.map (fun p => if p.1 == n then (n, d) else p)) n = some d := by
  induction dir with
  | nil => simp at h
  | cons p rest ih =>
    cases hp : p.1 == n with
    | true =>
      simp only [List.map_cons, hp, if_true]
      rw [lookupFile_cons]
      simp
    | false =>
      have h' : rest.any (fun p => p.1 == n) = true := by
        simpa [List.any_cons, hp] using h
      simp only [List.map_cons, hp, if_false]
      rw [lookupFile_cons, if_neg (by simp [hp])]
      exact ih h'

/-- Looking up `n` after the append branch of `saveFile`. -/
theorem lookupFile_append_new (dir : List (String × FileData)) (n : String) (d : FileData) :
    lookupFile (dir ++ [(n, d)]) n = some d ∨
    dir.any (fun p => p.1 == n) = true := by
  induction dir with
  | nil =>
    left
    rw [List.nil_append, lookupFile_cons]
    simp
  | cons p rest ih =>
    cases hp : p.1 == n with
    | true => right; simp [List.any_cons, hp]
    | false =>
      rcases ih with hl | hr
      · left
        rw [List.cons_append, lookupFile_cons, if_neg (by simp [hp])]
        exact hl
      · right; simp [List.any_cons, hr]

/-- Writing a file then looking it up returns the written content. -/
theorem lookupFile_saveFile (dir : List (String × FileData)) (n : String) (d : FileData) :
    lookupFile (saveFile dir n d) n = some d := by
  by_cases h : dir.any (fun p => p.1 == n) = true
  · rw [saveFile, if_pos h]
    exact lookupFile_map_subst dir n d h
  · rw [saveFile, if_neg h]
    rcases lookupFile_append_new dir n d with hl | hr
    · exact hl
    · exact absurd hr h

/-- The in-place branch of `saveFile` preserves the directory's name listing. -/
theorem saveFile_names_of_any (dir : List (String × FileData)) (n : String) (d : FileData)
    (h : dir.any (fun p => p.1 == n) = true) :
    (saveFile dir n d).map (fun p => p.1) = dir.map (fun p => p.1) := by
  rw [saveFile, if_pos h, List.map_map]
  apply List.map_congr_left
  intro p _
  cases hp : p.1 == n with
  | true =>
    have : p.1 = n := eq_of_beq hp
    simp [hp, this]
  | false =>
    have hne : ¬ p.1 = n := by simpa using hp
    simp [hne]

/-- Evaluation of `upload_file` once all validation guards pass: both files
are written under their derived names, and the response is determined by the
parse outcome of the data bytes. -/
theorem upload_valid_eq (v j : FilePart) (ts : String) (s : ServerState)
    (h1 : ¬ v.filename = "") (h2 : ¬ j.filename = "")
    (h3 : v.mimetype = "video/mp4") (h4 : j.mimetype = "application/json") :
    upload_file ⟨some v, some j⟩ ts s =
      ((match parseJsonFile j.content with
        | none => UploadResult.serverError "An error occurred: JSON decode failure"
        | some (Json.obj fields) =>
            UploadResult.ok ("videos/" ++ derivedVideoName ts v.filename)
              (jsonGet fields "gyroscopeData" (Json.arr []))
              (jsonGet fields "accelerometerData" (Json.arr []))
        | some _ =>
            UploadResult.serverError "An error occurred: document has no attribute get"),
       ⟨saveFile s.videoDir (derivedVideoName ts v.filename) v.content,
        saveFile s.jsonDir (derivedJsonName ts j.filename) j.content⟩) := by
  have e1 : (v.filename == "") = false := by simpa using h1
  have e2 : (j.filename == "") = false := by simpa using h2
  have e3 : (v.mimetype == "video/mp4") = true := by simpa using h3
  have e4 : (j.mimetype == "application/json") = true := by simpa using h4
  rw [upload_file]
  simp only [e1, e2, e3, e4, Bool.not_true, Bool.false_eq_true, if_false, if_true]
  cases parseJsonFile j.content with
  | none => rfl
  | some doc => cases doc <;> rfl

/-- C5: when validation passes but the uploaded data bytes are not valid JSON,
`upload_file` signals the data-format failure to the caller (the 500 carrying
the decode error — the code's rendering of `DataFormatError`), and the video
and data files written before the parse remain on disk: no rollback. -/
theorem upload_invalid_json_error_keeps_files
    (v j : FilePart) (ts : String) (s : ServerState)
    (h1 : ¬ v.filename = "") (h2 : ¬ j.filename = "")
    (h3 : v.mimetype = "video/mp4") (h4 : j.mimetype = "application/json")
    (hp : parseJsonFile j.content = none) :
    (upload_file ⟨some v, some j⟩ ts s).1.isServerError = true ∧
    lookupFile (upload_file ⟨some v, some j⟩ ts s).2.videoDir
      (derivedVideoName ts v.filename) = some v.content ∧
    lookupFile (upload_file ⟨some v, some j⟩ ts s).2.jsonDir
      (derivedJsonName ts j.filename) = some j.content := by
  rw [upload_valid_eq v j ts s h1 h2 h3 h4, hp]
  exact ⟨rfl, lookupFile_saveFile _ _ _, lookupFile_saveFile _ _ _⟩

/-- Closed instance of `upload_invalid_json_error_keeps_files`: uploading
non-JSON data bytes against the empty store fails with a 500 and leaves both
written files in place. -/
theorem upload_invalid_json_error_keeps_files_witness :
    (upload_file ⟨some videoPartA, some jsonPartBad⟩ ts0c emptyState).1.isServerError = true ∧
    lookupFile (upload_file ⟨some videoPartA, some jsonPartBad⟩ ts0c emptyState).2.videoDir
      (derivedVideoName ts0c videoPartA.filename) = some videoPartA.content ∧
    lookupFile (upload_file ⟨some videoPartA, some jsonPartBad⟩ ts0c emptyState).2.jsonDir
      (derivedJsonName ts0c jsonPartBad.filename) = some jsonPartBad.content :=
  upload_invalid_json_error_keeps_files videoPartA jsonPartBad ts0c emptyState
    (by decide) (by decide) rfl rfl rfl

/-- C4 counterexample: a data file whose bytes are valid JSON but not an
object (here the document `[]`) does not get the claimed empty-array
defaulting — the create call fails with a 500 instead of succeeding. -/
theorem upload_array_document_fatal_counterexample :
    (upload_file ⟨some videoPartA, some jsonPartArr⟩ ts0c emptyState).1.isOk = false ∧
    (upload_file ⟨some videoPartA, some jsonPartArr⟩ ts0c emptyState).1.isServerError
      = true :=
  ⟨rfl, rfl⟩

/-- C4 amended: after successful writes the data file is parsed as JSON; when
the document is an object, the response echoes the values under
`gyroscopeData` and `accelerometerData`, each defaulting to the empty array
when its key is absent; but when the document parses to a non-object value,
the create call fails with a 500 (the defaulting is only applied to
objects). -/
theorem upload_object_defaults_nonobject_fails
    (v j : FilePart) (ts : String) (s : ServerState) (doc : Json)
    (h1 : ¬ v.filename = "") (h2 : ¬ j.filename = "")
    (h3 : v.mimetype = "video/mp4") (h4 : j.mimetype = "application/json")
    (hp : parseJsonFile j.content = some doc) :
    (∀ fields, doc = Json.obj fields →
      (upload_file ⟨some v, some j⟩ ts s).1 =
        UploadResult.ok ("videos/" ++ derivedVideoName ts v.filename)
          (jsonGet fields "gyroscopeData" (Json.arr []))
          (jsonGet fields "accelerometerData" (Json.arr []))) ∧
    ((∀ fields, ¬ doc = Json.obj fields) →
      (upload_file ⟨some v, some j⟩ ts s).1.isServerError = true) := by
  rw [upload_valid_eq v j ts s h1 h2 h3 h4, hp]
  constructor
  · intro fields hf
    subst hf
    rfl
  · intro hno
    cases doc with
    | obj fields => exact absurd rfl (hno fields)
    | null => rfl
    | bool b => rfl
    | num n => rfl
    | str t => rfl
    | arr elems => rfl

/-- Closed instance of `upload_object_defaults_nonobject_fails`: a document
carrying only `gyroscopeData` is echoed with the accelerometer side defaulted
to the empty array. -/
theorem upload_object_defaults_nonobject_fails_witness :
    (upload_file ⟨some videoPartA, some jsonPartGyro⟩ ts0c emptyState).1 =
      UploadResult.ok "videos/2024-01-01_10-00-00-clip.mp4"
        (Json.arr [Json.num 1]) (Json.arr []) :=
  (upload_object_defaults_nonobject_fails videoPartA jsonPartGyro ts0c emptyState
      (Json.obj [("gyroscopeData", Json.arr [Json.num 1])])
      (by decide) (by decide) rfl rfl rfl).1
    [("gyroscopeData", Json.arr [Json.num 1])] rfl

/-- C1 counterexample: two create calls with the same clock second and
identical original filenames both report success, yet afterwards each
directory holds a single entry carrying the second call's bytes — the second
call overwrote the first at the very same path instead of deriving an
alternative one. -/
theorem upload_same_second_overwrites_counterexample :
    (upload_file reqA ts0c emptyState).1.isOk = true ∧
    (upload_file reqB ts0c (upload_file reqA ts0c emptyState).2).1.isOk = true ∧
    (upload_file reqB ts0c (upload_file reqA ts0c emptyState).2).2.videoDir =
      [("2024-01-01_10-00-00-clip.mp4", FileData.raw "second-bytes")] ∧
    (upload_file reqB ts0c (upload_file reqA ts0c emptyState).2).2.jsonDir =
      [("2024-01-01_10-00-00-data.json", FileData.jsonDoc (Json.obj []))] :=
  ⟨rfl, rfl, rfl, rfl⟩

/-- C1 amended: `upload_file` derives its target paths deterministically from
the key and the sanitized names alone, with no collision check: when both
derived paths already exist in the store, the upload writes in place — the
directories' name listings are unchanged (no alternative path is created) and
the existing contents are replaced by the new bytes. -/
theorem upload_collision_overwrites
    (v j : FilePart) (ts : String) (s : ServerState)
    (h1 : ¬ v.filename = "") (h2 : ¬ j.filename = "")
    (h3 : v.mimetype = "video/mp4") (h4 : j.mimetype = "application/json")
    (hv : s.videoDir.any (fun p => p.1 == derivedVideoName ts v.filename) = true)
    (hj : s.jsonDir.any (fun p => p.1 == derivedJsonName ts j.filename) = true) :
    (upload_file ⟨some v, some j⟩ ts s).2.videoDir.map (fun p => p.1) =
      s.videoDir.map (fun p => p.1) ∧
    (upload_file ⟨some v, some j⟩ ts s).2.jsonDir.map (fun p => p.1) =
      s.jsonDir.map (fun p => p.1) ∧
    lookupFile (upload_file ⟨some v, some j⟩ ts s).2.videoDir
      (derivedVideoName ts v.filename) = some v.content ∧
    lookupFile (upload_file ⟨some v, some j⟩ ts s).2.jsonDir
      (derivedJsonName ts j.filename) = some j.content := by
  rw [upload_valid_eq v j ts s h1 h2 h3 h4]
  exact ⟨saveFile_names_of_any _ _ _ hv, saveFile_names_of_any _ _ _ hj,
    lookupFile_saveFile _ _ _, lookupFile_saveFile _ _ _⟩

/-- Closed instance of `upload_collision_overwrites`: re-uploading
`clip.mp4`/`data.json` in the same second against a store already holding
both derived paths keeps the name listings and replaces the video bytes. -/
theorem upload_collision_overwrites_witness :
    (upload_file ⟨some videoPartB, some jsonPartOk⟩ ts0c collisionState).2.videoDir.map
        (fun p => p.1) = collisionState.videoDir.map (fun p => p.1) ∧
    (upload_file ⟨some videoPartB, some jsonPartOk⟩ ts0c collisionState).2.jsonDir.map
        (fun p => p.1) = collisionState.jsonDir.map (fun p => p.1) ∧
    lookupFile (upload_file ⟨some videoPartB, some jsonPartOk⟩ ts0c collisionState).2.videoDir
      (derivedVideoName ts0c videoPartB.filename) = some videoPartB.content ∧
    lookupFile (upload_file ⟨some videoPartB, some jsonPartOk⟩ ts0c collisionState).2.jsonDir
      (derivedJsonName ts0c jsonPartOk.filename) = some jsonPartOk.content :=
  upload_collision_overwrites videoPartB jsonPartOk ts0c collisionState
    (by decide) (by decide) rfl rfl (by decide) (by decide)

/-- `String.toList` distributes over append. -/
theorem string_toList_append (a b : String) : (a ++ b).toList = a.toList ++ b.toList :=
  String.data_append a b

/-- `splitDash` always returns at least one group. -/
theorem splitDash_ne_nil (l : List Char) : splitDash l ≠ [] := by
  cases l with
  | nil => simp [splitDash]
  | cons c cs =>
    rw [splitDash]
    rcases h : splitDash cs with _ | ⟨g, gs⟩
    · simp
    · by_cases hc : c = '-' <;> simp [hc]

/-- Splitting at dashes distributes over an append around a dash. -/
theorem splitDash_append_dash (xs ys : List Char) :
    splitDash (xs ++ '-' :: ys) = splitDash xs ++ splitDash ys := by
  induction xs with
  | nil =>
    rcases h : splitDash ys with _ | ⟨g, gs⟩
    · exact absurd h (splitDash_ne_nil ys)
    · simp [splitDash, h]
  | cons x xs ih =>
    rcases h : splitDash xs with _ | ⟨g, gs⟩
    · exact absurd h (splitDash_ne_nil xs)
    · rw [List.cons_append, splitDash, ih, h, splitDash, h]
      by_cases hx : x = '-' <;> simp [hx]

/-- A string suffix survives prepending on the left. -/
theorem pyEndsWith_append (pre s suf : String) (h : pyEndsWith s suf = true) :
    pyEndsWith (pre ++ s) suf = true := by
  have h' : suf.toList <:+ s.toList := by
    simpa [pyEndsWith] using h
  have h2 : suf.toList <:+ (pre ++ s).toList := by
    rw [string_toList_append]
    exact h'.trans (List.suffix_append pre.toList s.toList)
  simpa [pyEndsWith] using h2

/-- A list is an infix of itself followed by anything. -/
theorem listIsInfix_prefix (n rest : List Char) : listIsInfix n (n ++ rest) = true := by
  cases n with
  | nil =>
    cases rest with
    | nil => rfl
    | cons c cs => simp [listIsInfix]
  | cons a as =>
    rw [List.cons_append, listIsInfix]
    have hp : (a :: as).isPrefixOf (a :: (as ++ rest)) = true := by
      rw [← List.cons_append]
      simp [List.isPrefixOf_iff_prefix]
    simp [hp]

/-- The key derived from any name of the shape `{ts0c}-{base}` is `2024-01`:
the first two dash-delimited tokens come from the timestamp prefix alone. -/
theorem intercalate_take2_prefixed (base : String) :
    String.intercalate "-" ((pySplitDash (ts0c ++ "-" ++ base)).take 2) = "2024-01" := by
  have h1 : (ts0c ++ "-" ++ base).toList = "2024-01-01_10-00-00".toList ++ '-' :: base.toList := by
    show (ts0c ++ "-" ++ base).data = _
    rw [String.data_append, String.data_append]
    rfl
  rw [pySplitDash, h1, splitDash_append_dash]
  rw [show splitDash "2024-01-01_10-00-00".toList =
      ["2024".toList, "01".toList, "01_10".toList, "00".toList, "00".toList] by decide]
  simp only [List.cons_append, List.map_cons, List.take_succ_cons, List.take_zero]
  decide

/-- The key `2024-01` occurs as a substring of any name of the shape
`{ts0c}-{tail}`. -/
theorem pyIn_key_of_ts_prefixed (tail : String) :
    pyIn "2024-01" (ts0c ++ "-" ++ tail) = true := by
  rw [pyIn]
  have h1 : (ts0c ++ "-" ++ tail).toList
      = "2024-01".toList ++ ("-01_10-00-00".toList ++ '-' :: tail.toList) := by
    show (ts0c ++ "-" ++ tail).data = _
    rw [String.data_append, String.data_append]
    rw [show ts0c.data = "2024-01".toList ++ "-01_10-00-00".toList by decide]
    simp [List.append_assoc]
  rw [h1]
  exact listIsInfix_prefix _ _

/-- C3 counterexample, two scenarios against the empty store with key
`2024-01-01_10-00-00`.  First, a successful create of `clip.mp4`:
`list_datasets` returns the full stored stem `2024-01-01_10-00-00-clip` and
does not contain the bare correlation key generated at upload time.  Second,
a successful create of `CLIP.MP4`: upload's extension check is
case-insensitive so the file is stored as `2024-01-01_10-00-00-CLIP.MP4`,
but the case-sensitive `endswith(".mp4")` scans make `list_datasets` return
nothing and `download_all_datasets` skip the entry entirely — so the key is
again neither listed nor in the complete pair set. -/
theorem list_returns_stem_counterexample :
    ((upload_file reqA ts0c emptyState).1.isOk = true ∧
     list_datasets (upload_file reqA ts0c emptyState).2 = ["2024-01-01_10-00-00-clip"] ∧
     "2024-01-01_10-00-00" ∉ list_datasets (upload_file reqA ts0c emptyState).2) ∧
    ((upload_file reqUpper ts0c emptyState).1.isOk = true ∧
     (upload_file reqUpper ts0c emptyState).2.videoDir.map (fun p => p.1) =
       ["2024-01-01_10-00-00-CLIP.MP4"] ∧
     list_datasets (upload_file reqUpper ts0c emptyState).2 = [] ∧
     download_all_datasets (upload_file reqUpper ts0c emptyState).2 = ([], [])) := by
  refine ⟨⟨rfl, rfl, ?_⟩, rfl, rfl, rfl, rfl⟩
  decide

/-- C3 amended: for a create that passes validation into the empty store,
with the representative key `2024-01-01_10-00-00` and a data part whose
sanitized name ends in `.json`, the behaviour splits on the case of the
stored video extension, because upload's extension check is case-insensitive
while the list/pairing scans are case-sensitive.  When the stored video name
ends in lowercase `.mp4`, `list_datasets` returns the extension-stripped
stored stem — key plus `-` plus sanitized video base name, never the bare
key — and `download_all_datasets` pairs the entry under the derived key
`2024-01` (the first two dash-delimited tokens, shorter than the full key)
with an empty incomplete list.  When it does not (e.g. a video uploaded as
`CLIP.MP4`), the stored dataset is invisible: `list_datasets` returns
nothing and `download_all_datasets` skips the entry, reporting it neither as
complete nor as incomplete. -/
theorem upload_success_list_and_pairs (v j : FilePart)
    (h1 : ¬ v.filename = "") (h2 : ¬ j.filename = "")
    (h3 : v.mimetype = "video/mp4") (h4 : j.mimetype = "application/json")
    (hjson : pyEndsWith (sanitize_filename j.filename) ".json" = true) :
    (pyEndsWith (derivedVideoName ts0c v.filename) ".mp4" = true →
      list_datasets (upload_file ⟨some v, some j⟩ ts0c emptyState).2 =
        [(splitext (derivedVideoName ts0c v.filename)).1] ∧
      download_all_datasets (upload_file ⟨some v, some j⟩ ts0c emptyState).2 =
        ([("2024-01", derivedVideoName ts0c v.filename, derivedJsonName ts0c j.filename)],
         [])) ∧
    (pyEndsWith (derivedVideoName ts0c v.filename) ".mp4" = false →
      list_datasets (upload_file ⟨some v, some j⟩ ts0c emptyState).2 = [] ∧
      download_all_datasets (upload_file ⟨some v, some j⟩ ts0c emptyState).2 =
        ([], [])) := by
  have hstate : (upload_file ⟨some v, some j⟩ ts0c emptyState).2 =
      ⟨[(derivedVideoName ts0c v.filename, v.content)],
       [(derivedJsonName ts0c j.filename, j.content)]⟩ := by
    rw [upload_valid_eq v j ts0c emptyState h1 h2 h3 h4]
    rfl
  rw [hstate]
  constructor
  · intro hmp4
    constructor
    · rw [list_datasets]
      simp [hmp4]
    · rw [download_all_datasets]
      have hkey : String.intercalate "-"
          ((pySplitDash (derivedVideoName ts0c v.filename)).take 2) = "2024-01" := by
        rw [derivedVideoName]
        exact intercalate_take2_prefixed (videoBase v.filename)
      have hin : pyIn "2024-01" (derivedJsonName ts0c j.filename) = true := by
        rw [derivedJsonName]
        exact pyIn_key_of_ts_prefixed (sanitize_filename j.filename)
      have hend : pyEndsWith (derivedJsonName ts0c j.filename) ".json" = true := by
        rw [derivedJsonName]
        exact pyEndsWith_append (ts0c ++ "-") _ _ hjson
      have hmatch : matchingJsonFiles [(derivedJsonName ts0c j.filename, j.content)]
          "2024-01" = [derivedJsonName ts0c j.filename] := by
        rw [matchingJsonFiles]
        simp [hin, hend]
      simp only [List.map_cons, List.map_nil]
      rw [downloadAllGo, if_pos hmp4]
      simp only [hkey, hmatch]
      rfl
  · intro hmp4
    constructor
    · rw [list_datasets]
      simp [hmp4]
    · rw [download_all_datasets]
      simp only [List.map_cons, List.map_nil]
      rw [downloadAllGo, if_neg (by simp [hmp4])]
      rfl

/-- Closed instance of `upload_success_list_and_pairs`, lowercase branch, at
the concrete request `reqA`. -/
theorem upload_success_list_and_pairs_witness :
    list_datasets (upload_file ⟨some videoPartA, some jsonPartOk⟩ ts0c emptyState).2 =
      [(splitext (derivedVideoName ts0c videoPartA.filename)).1] ∧
    download_all_datasets (upload_file ⟨some videoPartA, some jsonPartOk⟩ ts0c emptyState).2 =
      ([("2024-01", derivedVideoName ts0c videoPartA.filename,
         derivedJsonName ts0c jsonPartOk.filename)], []) :=
  (upload_success_list_and_pairs videoPartA jsonPartOk
    (by decide) (by decide) rfl rfl (by decide)).1 (by decide)

end DatasetCollector
